import Mathlib

/-!
Shallow embedding of the HTTP-cache and integrity-verification core of the
`nvsdk_getter` tool (files `src/cache.rs`, `src/actions.rs`, `src/error.rs`,
`src/caching_client.rs`), together with theorems settling the frozen claims
about it.

Machine integers are modelled as `Nat` with explicit reduction `% 2^32`
(resp. `% 2^64`) where 32-bit (64-bit) overflow matters.  Byte buffers are
`List Nat` with every element `< 256`.  Timestamps (`chrono::DateTime<Utc>`)
are modelled as unbounded `Int` instants; "now" is passed explicitly.
Fallible Rust functions returning `Result<T, Error>` become `Except Error T`.
-/

namespace NvsdkGetter

/-! ### MD5 (the `md5` crate: `md5::Context::consume` / `compute`, RFC 1321)

`cache.rs::get_url_cache_dir` and `actions.rs::validate_file` both feed bytes
through an MD5 context and format the 16-byte digest as lower-case hex via
`format!("{:x}", digest)`.  The algorithm is transcribed here over `Nat`. -/

/-- 32-bit truncation. -/
def w32 (n : Nat) : Nat := n % 4294967296

/-- 32-bit left rotation (`x` is assumed `< 2^32`). -/
def rotl32 (x s : Nat) : Nat := w32 (x <<< s) ||| (x >>> (32 - s))

/-- The 64 sine-derived round constants `K[i] = floor(2^32 * |sin(i+1)|)`. -/
def kTable : List Nat :=
  [0xd76aa478, 0xe8c7b756, 0x242070db, 0xc1bdceee,
   0xf57c0faf, 0x4787c62a, 0xa8304613, 0xfd469501,
   0x698098d8, 0x8b44f7af, 0xffff5bb1, 0x895cd7be,
   0x6b901122, 0xfd987193, 0xa679438e, 0x49b40821,
   0xf61e2562, 0xc040b340, 0x265e5a51, 0xe9b6c7aa,
   0xd62f105d, 0x02441453, 0xd8a1e681, 0xe7d3fbc8,
   0x21e1cde6, 0xc33707d6, 0xf4d50d87, 0x455a14ed,
   0xa9e3e905, 0xfcefa3f8, 0x676f02d9, 0x8d2a4c8a,
   0xfffa3942, 0x8771f681, 0x6d9d6122, 0xfde5380c,
   0xa4beea44, 0x4bdecfa9, 0xf6bb4b60, 0xbebfbc70,
   0x289b7ec6, 0xeaa127fa, 0xd4ef3085, 0x04881d05,
   0xd9d4d039, 0xe6db99e5, 0x1fa27cf8, 0xc4ac5665,
   0xf4292244, 0x432aff97, 0xab9423a7, 0xfc93a039,
   0x655b59c3, 0x8f0ccc92, 0xffeff47d, 0x85845dd1,
   0x6fa87e4f, 0xfe2ce6e0, 0xa3014314, 0x4e0811a1,
   0xf7537e82, 0xbd3af235, 0x2ad7d2bb, 0xeb86d391]

/-- The 64 per-round left-rotation amounts. -/
def sTable : List Nat :=
  [7, 12, 17, 22, 7, 12, 17, 22, 7, 12, 17, 22, 7, 12, 17, 22,
   5, 9, 14, 20, 5, 9, 14, 20, 5, 9, 14, 20, 5, 9, 14, 20,
   4, 11, 16, 23, 4, 11, 16, 23, 4, 11, 16, 23, 4, 11, 16, 23,
   6, 10, 15, 21, 6, 10, 15, 21, 6, 10, 15, 21, 6, 10, 15, 21]

/-- The four 32-bit MD5 chaining variables. -/
structure MD5State where
  a : Nat
  b : Nat
  c : Nat
  d : Nat
deriving DecidableEq

/-- Initial chaining values. -/
def md5InitState : MD5State :=
  { a := 0x67452301, b := 0xefcdab89, c := 0x98badcfe, d := 0x10325476 }

/-- All-ones 32-bit mask, used for bitwise complement. -/
def mask32 : Nat := 0xffffffff

/-- One of the 64 MD5 steps; `M j` is the `j`-th little-endian 32-bit word of
the current block. -/
def md5StepFn (M : Nat → Nat) (st : MD5State) (i : Nat) : MD5State :=
  let f :=
    if i < 16 then (st.b &&& st.c) ||| ((st.b ^^^ mask32) &&& st.d)
    else if i < 32 then (st.d &&& st.b) ||| ((st.d ^^^ mask32) &&& st.c)
    else if i < 48 then st.b ^^^ st.c ^^^ st.d
    else st.c ^^^ (st.b ||| (st.d ^^^ mask32))
  let g :=
    if i < 16 then i
    else if i < 32 then (5 * i + 1) % 16
    else if i < 48 then (3 * i + 5) % 16
    else (7 * i) % 16
  let sum := w32 (st.a + f + kTable.getD i 0 + M g)
  { a := st.d, d := st.c, c := st.b,
    b := w32 (st.b + rotl32 sum (sTable.getD i 0)) }

/-- The `j`-th little-endian 32-bit word of a 64-byte block. -/
def wordAt (blk : List Nat) (j : Nat) : Nat :=
  blk.getD (4 * j) 0 + (blk.getD (4 * j + 1) 0) <<< 8 +
    (blk.getD (4 * j + 2) 0) <<< 16 + (blk.getD (4 * j + 3) 0) <<< 24

/-- Process one 64-byte block, then add the result into the chaining state. -/
def md5ProcessBlock (st : MD5State) (blk : List Nat) : MD5State :=
  let r := (List.range 64).foldl (md5StepFn (wordAt blk)) st
  { a := w32 (st.a + r.a), b := w32 (st.b + r.b),
    c := w32 (st.c + r.c), d := w32 (st.d + r.d) }

/-- Little-endian bytes of a `Nat`, `k` bytes wide. -/
def leBytes : Nat → Nat → List Nat
  | 0, _ => []
  | k + 1, n => n % 256 :: leBytes k (n / 256)

/-- MD5 padding: `0x80`, zeros to 56 mod 64, then the bit length as a
little-endian 64-bit quantity. -/
def padMsg (msg : List Nat) : List Nat :=
  msg ++ 0x80 :: List.replicate ((64 - (msg.length + 9) % 64) % 64) 0 ++
    leBytes 8 ((8 * msg.length) % 18446744073709551616)

/-- Split a byte list into 64-byte blocks; structural recursion on a fuel
bound (each step consumes at least one byte, so `l.length` fuel suffices). -/
def toBlocksFuel : Nat → List Nat → List (List Nat)
  | 0, _ => []
  | _, [] => []
  | fuel + 1, x :: xs => ((x :: xs).take 64) :: toBlocksFuel fuel ((x :: xs).drop 64)

/-- Split a byte list into 64-byte blocks. -/
def toBlocks (l : List Nat) : List (List Nat) := toBlocksFuel l.length l

/-- Run MD5 over a whole (already unpadded) message, producing the final four
chaining words, each reduced mod `2^32`. -/
def md5Core (msg : List Nat) : MD5State :=
  let r := (toBlocks (padMsg msg)).foldl md5ProcessBlock md5InitState
  { a := w32 r.a, b := w32 r.b, c := w32 r.c, d := w32 r.d }

/-- Little-endian byte serialization of one 32-bit word. -/
def wordLEBytes (w : Nat) : List Nat :=
  [w % 256, (w >>> 8) % 256, (w >>> 16) % 256, (w >>> 24) % 256]

/-- The 16 digest bytes, in output order. -/
def md5Bytes (msg : List Nat) : List Nat :=
  let st := md5Core msg
  wordLEBytes st.a ++ wordLEBytes st.b ++ wordLEBytes st.c ++ wordLEBytes st.d

/-- Lower-case hex digit. -/
def hexDigitChar (n : Nat) : Char :=
  if n < 10 then Char.ofNat (48 + n) else Char.ofNat (87 + n)

/-- Two lower-case hex digits of one byte, high nibble first. -/
def byteHexChars (b : Nat) : List Char := [hexDigitChar (b / 16), hexDigitChar (b % 16)]

/-- `format!("{:x}", digest)`: the 16 digest bytes as 32 lower-case hex
characters. -/
def md5Hex (msg : List Nat) : String := String.mk ((md5Bytes msg).flatMap byteHexChars)

/-! ### URL → cache key (`cache.rs::get_url_cache_dir`, lines 109-116)

The Rust code hashes `url_str.as_bytes()` (the UTF-8 bytes of the URL string)
and uses the lower-case hex digest as the directory name under the `http`
cache subdirectory. -/

/-- UTF-8 encoding of one character (what `str::as_bytes` exposes per char). -/
def utf8EncodeChar (c : Char) : List Nat :=
  let n := c.toNat
  if n < 0x80 then [n]
  else if n < 0x800 then
    [0xc0 ||| (n >>> 6), 0x80 ||| (n &&& 0x3f)]
  else if n < 0x10000 then
    [0xe0 ||| (n >>> 12), 0x80 ||| ((n >>> 6) &&& 0x3f), 0x80 ||| (n &&& 0x3f)]
  else
    [0xf0 ||| (n >>> 18), 0x80 ||| ((n >>> 12) &&& 0x3f),
     0x80 ||| ((n >>> 6) &&& 0x3f), 0x80 ||| (n &&& 0x3f)]

/-- `url_str.as_bytes()`: the UTF-8 byte sequence of a string. -/
def strBytes (s : String) : List Nat := s.data.flatMap utf8EncodeChar

/-- The cache key derived from a URL: `format!("{:x}", md5(url))`
(`get_url_cache_dir`, and identically `caching_client.rs::url_cache_path`). -/
def urlCacheKey (url_str : String) : String := md5Hex (strBytes url_str)

/-- `get_url_cache_dir`: the per-URL cache directory, relative to the cache
root (`<root>/http/<key>`; the root from `dirs::cache_dir` is abstracted). -/
def getUrlCacheDir (url_str : String) : String := "http/" ++ urlCacheKey url_str

/-! ### Error type (`error.rs`)

Payloads carried by variants irrelevant to the claims are dropped; the
variants themselves are kept.  `parseIntFail` models the `map_err(Error::from)`
on `u64::from_str_radix` overflow in `cache.rs` line 75 (error.rs declares no
dedicated variant for it). -/

/-- The crate's `Error` enum (`error.rs`), payload-matching where claims
inspect payloads. -/
inductive Error where
  | utf8ParseFail : Error
  | ioFail : Error
  | jsonFail : Error
  | httpFail : Error
  | httpStatusFail (status : Nat) : Error
  | invalidUrl : Error
  | invalidSection (s : String) : Error
  | invalidGroup (s : String) : Error
  | invalidComponent (s : String) : Error
  | unsupportedChecksumType (cktype : String) : Error
  | fileNotExist (path : String) : Error
  | fileDigestInvalid (file cktype expected actual : String) : Error
  | parseIntFail : Error
deriving DecidableEq

/-! ### Cache-control policy (`cache.rs` lines 48-94) -/

/-- `CacheControl` (`cache.rs` lines 48-61); `Expires` carries a UTC instant,
modelled as an integer timestamp. -/
inductive CacheControl where
  | NoStore : CacheControl
  | NoCache : CacheControl
  | Expires (t : Int) : CacheControl
  | MustRevalidate : CacheControl
deriving DecidableEq

/-- Remainder of `cs` after a literal pattern `pat`, if `pat` leads `cs`. -/
def matchLiteral : List Char → List Char → Option (List Char)
  | [], cs => some cs
  | _ :: _, [] => none
  | p :: ps, c :: cs => if c = p then matchLiteral ps cs else none

/-- The Unicode `Nd` (decimal number) codepoint ranges, Unicode 14.0: the
character class the `regex` crate's `\d` matches by default (`\p{Nd}`). -/
def ndRanges : List (Nat × Nat) :=
  [(48, 57), (1632, 1641), (1776, 1785), (1984, 1993),
   (2406, 2415), (2534, 2543), (2662, 2671), (2790, 2799),
   (2918, 2927), (3046, 3055), (3174, 3183), (3302, 3311),
   (3430, 3439), (3558, 3567), (3664, 3673), (3792, 3801),
   (3872, 3881), (4160, 4169), (4240, 4249), (6112, 6121),
   (6160, 6169), (6470, 6479), (6608, 6617), (6784, 6793),
   (6800, 6809), (6992, 7001), (7088, 7097), (7232, 7241),
   (7248, 7257), (42528, 42537), (43216, 43225), (43264, 43273),
   (43472, 43481), (43504, 43513), (43600, 43609), (44016, 44025),
   (65296, 65305), (66720, 66729), (68912, 68921), (69734, 69743),
   (69872, 69881), (69942, 69951), (70096, 70105), (70384, 70393),
   (70736, 70745), (70864, 70873), (71248, 71257), (71360, 71369),
   (71472, 71481), (71904, 71913), (72016, 72025), (72784, 72793),
   (73040, 73049), (73120, 73129), (92768, 92777), (92864, 92873),
   (93008, 93017), (120782, 120831), (123200, 123209), (123632, 123641),
   (125264, 125273), (130032, 130041)]

/-- Membership in the `\d` class of `MAX_AGE_RE`: a Unicode decimal digit. -/
def isNdDigit (c : Char) : Bool :=
  ndRanges.any (fun r => decide (r.1 ≤ c.toNat) && decide (c.toNat ≤ r.2))

/-- The capture of the anchored regex `^max-age=(?P<age>\d+)$` (`MAX_AGE_RE`,
`cache.rs` line 65): the digit string after `max-age=`, when the whole input
has that shape.  `\d` is the Unicode decimal-digit class `\p{Nd}`, the
`regex` crate's default. -/
def maxAgeCapture (s : String) : Option (List Char) :=
  match matchLiteral "max-age=".data s.data with
  | some rest => if rest ≠ [] && rest.all isNdDigit then some rest else none
  | none => none

/-- Value of a string of decimal digits. -/
def natOfDigits (ds : List Char) : Nat :=
  ds.foldl (fun n c => 10 * n + (c.toNat - 48)) 0

/-- `u64::MAX`. -/
def u64Max : Nat := 18446744073709551615

/-- The `secs as i64` cast at `cache.rs` line 76: two's-complement wrap of a
`u64` value into a signed 64-bit quantity. -/
def u64AsI64 (n : Nat) : Int :=
  if n < 9223372036854775808 then (n : Int) else (n : Int) - 18446744073709551616

/-- The largest whole-second magnitude `chrono::Duration::seconds` accepts:
`Duration`'s bounds are ±`i64::MAX` milliseconds, so a seconds value with
magnitude above `i64::MAX / 1000 = 9223372036854775` makes it panic. -/
def durationSecsMax : Nat := 9223372036854775

/-- The timestamp of `chrono`'s minimum instant, `-262144-01-01T00:00:00`
(`NaiveDate::MIN`, year `i32::MIN >> 13`): `DateTime + Duration` panics when
the sum falls below it. -/
def dateTimeMinTs : Int := -8334632851200

/-- The timestamp of `chrono`'s maximum instant, `262143-12-31T23:59:59…`
(`NaiveDate::MAX`, year `i32::MAX >> 13`): `DateTime + Duration` panics when
the sum rises above it. -/
def dateTimeMaxTs : Int := 8210298412799

/-- The possible outcomes of one `CacheControl::try_from` call: a returned
`Ok` value, a returned `Err` value, or a panic (`chrono` aborts instead of
returning). -/
inductive CCParse where
  | ok (c : CacheControl) : CCParse
  | err (e : Error) : CCParse
  | panics : CCParse
deriving DecidableEq

/-- `impl TryFrom<&str> for CacheControl` (`cache.rs` lines 68-94), with
every outcome modelled.  On a `max-age=<\d+>` match the digits go through
`u64::from_str_radix(_, 10)`, which fails (the `map_err(Error::from)?` path)
when a digit is a non-ASCII member of `\p{Nd}` or the value overflows `u64`;
the parsed value is cast `as i64` (wrapping at `2^63`) and handed to
`chrono::Duration::seconds`, which panics beyond ±`durationSecsMax`; the
addition `now + duration` panics when it leaves `chrono`'s instant range;
otherwise the result is `Expires(now + signed seconds)`.  Any input not
matching `MAX_AGE_RE` yields `Ok(MustRevalidate)`. -/
def cacheControlParse (now : Int) (content : String) : CCParse :=
  match maxAgeCapture content with
  | some ds =>
      if ds.all Char.isDigit then
        if natOfDigits ds ≤ u64Max then
          if u64AsI64 (natOfDigits ds) < -(durationSecsMax : Int) ∨
              (durationSecsMax : Int) < u64AsI64 (natOfDigits ds) then
            .panics
          else if now + u64AsI64 (natOfDigits ds) < dateTimeMinTs ∨
              dateTimeMaxTs < now + u64AsI64 (natOfDigits ds) then
            .panics
          else
            .ok (.Expires (now + u64AsI64 (natOfDigits ds)))
        else .err .parseIntFail
      else .err .parseIntFail
  | none => .ok .MustRevalidate

/-- The `Result` value `try_from` hands to `cached_get_path`'s header fold on
its returning domain.  A `.panics` outcome — where the source aborts the
whole process instead of returning — is mapped to the parse-error value here;
the fetch-path theorems (C2-C4's subjects) abstract panics away and rely only
on this returning projection. -/
def cacheControlTryFrom (now : Int) (content : String) : Except Error CacheControl :=
  match cacheControlParse now content with
  | .ok c => .ok c
  | .err e => .error e
  | .panics => .error .parseIntFail

/-! ### Cache metadata (`cache.rs` lines 18-46, 118-153) -/

/-- `CacheHeaders` (`cache.rs` lines 18-24). -/
structure CacheHeaders where
  source : Option String
  cache_control : Option CacheControl
  last_modified : Option String
  etag : Option String
deriving DecidableEq

/-- `CacheHeaders::new` (`cache.rs` lines 38-45). -/
def CacheHeaders.new (url : String) : CacheHeaders :=
  { source := some url, cache_control := none, last_modified := none, etag := none }

/-- `get_url_metadata` (`cache.rs` lines 118-153): load the stored record (or
a fresh one when absent) and apply the cache-control evaluation.  `stored` is
the parsed on-disk record, `none` when the metadata file does not exist;
`now` is the instant `chrono::Utc::now()` sampled in the `Expires` guard. -/
def getUrlMetadata (now : Int) (stored : Option CacheHeaders) (url_str : String) :
    CacheHeaders :=
  let metadata := match stored with
    | some m => m
    | none => CacheHeaders.new url_str
  match metadata.cache_control with
  | none =>
      { metadata with etag := none, last_modified := none }
  | some .NoStore =>
      { metadata with etag := none, last_modified := none }
  | some (.Expires dt) =>
      if dt ≥ now then
        -- guard arm `Some(CacheControl::Expires(dt)) if dt >= &chrono::Utc::now()`:
        -- debug logging only, validators kept
        metadata
      else
        -- guard fails: falls through to the `_` arm, validators kept
        metadata
  | some _ => metadata

/-! ### Conditional fetch (`cache.rs` lines 155-234) -/

/-- The outbound request built by `cached_get_path`: the URL plus the two
optional validator headers `If-None-Match` / `If-Modified-Since`. -/
structure HttpRequest where
  url : String
  ifNoneMatch : Option String
  ifModifiedSince : Option String
deriving DecidableEq

/-- `cached_get_path` lines 159-168: start from a bare GET and add each
validator header only when the evaluated metadata carries it. -/
def buildRequest (url_str : String) (metadata : CacheHeaders) : HttpRequest :=
  let req : HttpRequest := { url := url_str, ifNoneMatch := none, ifModifiedSince := none }
  let req := match metadata.etag with
    | some etag => { req with ifNoneMatch := some etag }
    | none => req
  match metadata.last_modified with
  | some modified => { req with ifModifiedSince := some modified }
  | none => req

/-- The parts of a `reqwest::Response` that `cached_get_path` consumes:
status, body bytes, and the `ETag` / `Last-Modified` / `Cache-Control`
response headers (header values modelled as strings; `get_all` order kept). -/
structure HttpResponse where
  status : Nat
  body : List Nat
  etag : Option String
  lastModified : Option String
  cacheControl : List String

/-- `StatusCode::is_success`: 2xx. -/
def isSuccess (status : Nat) : Bool := 200 ≤ status && status < 300

/-- `cached_get_path` lines 205-214: the first `Cache-Control` header value
that parses (`filter_map(.. try_into .. .ok()).next()`). -/
def firstParsedCacheControl (now : Int) (headers : List String) : Option CacheControl :=
  (headers.filterMap (fun h => (cacheControlTryFrom now h).toOption)).head?

/-- The on-disk cache entry for one URL: the `data` artifact's bytes and the
parsed `cache` metadata record, each `none` when the file does not exist. -/
structure CacheState where
  data : Option (List Nat)
  meta : Option CacheHeaders
deriving DecidableEq

/-- `<url cache dir>/data`, the path `cached_get_path` returns. -/
def dataPath (url_str : String) : String := getUrlCacheDir url_str ++ "/data"

/-- `cached_get_path` (`cache.rs` lines 155-234).  `server` maps the built
request to the response the single `req.send()` produces.  Returns the final
cache entry state together with the `Result<PathBuf>`: on 2xx the body is
written to `data` and a fresh metadata record is written; on 304 the entry is
untouched; on any other status the entry is untouched and the status is
returned as an error (`Error::from(status)`, error.rs lines 62-66). -/
def cachedGetPath (now : Int) (st : CacheState) (url_str : String)
    (server : HttpRequest → HttpResponse) : CacheState × Except Error String :=
  let metadata := getUrlMetadata now st.meta url_str
  let req := buildRequest url_str metadata
  let resp := server req
  let status := resp.status
  -- `std::fs::create_dir_all(&url_cache)` creates directories only: it never
  -- writes or alters the `data` or `cache` files of the entry
  if isSuccess status then
    let newMeta := CacheHeaders.new url_str
    let newMeta := { newMeta with
      etag := resp.etag,
      last_modified := resp.lastModified,
      cache_control := firstParsedCacheControl now resp.cacheControl }
    ({ data := some resp.body, meta := some newMeta }, .ok (dataPath url_str))
  else if status = 304 then
    (st, .ok (dataPath url_str))
  else
    (st, .error (.httpStatusFail status))

/-! ### Catalog data (`sdkm_l3.rs`, the fields `actions.rs::verify` reads) -/

/-- `L3ComponentVersionDownloadFile` (`sdkm_l3.rs` lines 210-219), restricted
to the fields `verify` consumes. -/
structure L3DownloadFile where
  url : String
  file_name : String
  checksum : String
  checksum_type : String
deriving DecidableEq

/-- `L3ComponentVersion` (`sdkm_l3.rs` lines 188-200), restricted to the
fields `verify` consumes. -/
structure L3ComponentVersion where
  version : String
  download_files : List L3DownloadFile
deriving DecidableEq

/-- `L3Component` (`sdkm_l3.rs` lines 174-186), restricted to the fields
`verify` consumes. -/
structure L3Component where
  id : String
  versions : List L3ComponentVersion
deriving DecidableEq

/-! ### File verification (`actions.rs` lines 214-278)

The local filesystem is a map from path to the file's bytes (`none` when the
path does not exist); `fs::metadata`/`File::open` on an existing path are
assumed to succeed (their I/O-failure modes are environmental). -/

/-- `validate_file` (`actions.rs` lines 214-248): existence check first, then
dispatch on the checksum type; for `"md5"` the file is streamed through an
MD5 context and the lower-case hex digest is compared to `checksum` with
string equality (`digest_str != checksum`). -/
def validateFile (fs : String → Option (List Nat)) (filename : String)
    (checksum_type : String) (checksum : String) : Except Error Unit :=
  match fs filename with
  | none => .error (.fileNotExist filename)
  | some contents =>
    -- `match checksum_type { "md5" => …, _ => … }`: an equality test against
    -- the one supported literal
    if checksum_type = "md5" then
      let digest_str := md5Hex contents
      if digest_str ≠ checksum then
        .error (.fileDigestInvalid filename checksum_type checksum digest_str)
      else
        .ok ()
    else .error (.unsupportedChecksumType checksum_type)

/-- One line of `verify`'s per-file reporting (`error!` / `info!` calls,
`actions.rs` lines 267-272), in the argument order of the format strings. -/
inductive LogEvent where
  | invalidDigest (file cktype actual expected : String) : LogEvent
  | missingFile (file : String) : LogEvent
  | validFile (file : String) : LogEvent
deriving DecidableEq

/-- The body of `verify`'s innermost loop (`actions.rs` lines 258-273): run
`validate_file`; a `FileDigestInvalid` or `FileNotExist` outcome is reported
as a per-file log line, any other error is propagated (`_ => Err(e)?`). -/
def verifyStep (fs : String → Option (List Nat)) (cache_dir : String)
    (file : L3DownloadFile) : Except Error LogEvent :=
  let local_filename := cache_dir ++ "/" ++ file.file_name
  match validateFile fs local_filename file.checksum_type file.checksum with
  | .error (.fileDigestInvalid f ct c d) => .ok (.invalidDigest f ct d c)
  | .error (.fileNotExist f) => .ok (.missingFile f)
  | .error e => .error e
  | .ok _ => .ok (.validFile local_filename)

/-- Run a list of per-file steps in order, collecting the log lines and
stopping at the first propagated error. -/
def runSteps (fs : String → Option (List Nat)) (cache_dir : String) :
    List L3DownloadFile → List LogEvent × Option Error
  | [] => ([], none)
  | file :: rest =>
    match verifyStep fs cache_dir file with
    | .ok ev =>
        (ev :: (runSteps fs cache_dir rest).1, (runSteps fs cache_dir rest).2)
    | .error e => ([], some e)

/-- The download files of a component, in the order `verify`'s two nested
loops (versions, then files) visit them. -/
def componentFiles (comp : L3Component) : List L3DownloadFile :=
  comp.versions.flatMap (fun v => v.download_files)

/-- `verify` (`actions.rs` lines 250-278).  `get_component` is the catalog
lookup (`l3repo.get_component`); `component_ids` is the id set produced by
`get_component_ids`, in its (unspecified) `HashSet` iteration order.  Returns
the per-file log lines emitted before completion or abort, and the fatal
error if one aborted the batch (`Ok(())` ↦ `none`). -/
def verify (get_component : String → Option L3Component)
    (fs : String → Option (List Nat)) (cache_dir : String) :
    List String → List LogEvent × Option Error
  | [] => ([], none)
  | component_id :: rest =>
    match get_component component_id with
    | none => ([], some (.invalidComponent component_id))
    | some comp =>
      match (runSteps fs cache_dir (componentFiles comp)).2 with
      | none =>
          ((runSteps fs cache_dir (componentFiles comp)).1 ++
            (verify get_component fs cache_dir rest).1,
           (verify get_component fs cache_dir rest).2)
      | some e => ((runSteps fs cache_dir (componentFiles comp)).1, some e)

/-- The number of download files `verify` would visit for an id list: the
per-component file count summed in iteration order (0 for an id whose lookup
fails, though such an id aborts the run). -/
def verifyTotalFiles (get_component : String → Option L3Component) :
    List String → Nat
  | [] => 0
  | component_id :: rest =>
    (match get_component component_id with
     | some comp => (componentFiles comp).length
     | none => 0) + verifyTotalFiles get_component rest

/-- An outcome of `validate_file` that `verify`'s error match treats as a
per-file report rather than a fatal error: success, `FileDigestInvalid`, or
`FileNotExist` (`actions.rs` lines 261-270). -/
def stepOutcomeNonFatal (r : Except Error Unit) : Bool :=
  match r with
  | .ok _ => true
  | .error (.fileDigestInvalid _ _ _ _) => true
  | .error (.fileNotExist _) => true
  | .error _ => false

/-- The final MD5 chaining words of a URL's key digest, packaged as elements
of the finite type `Fin 2^32`; the cache key is a function of this value. -/
def md5CoreFin (u : String) :
    Fin 4294967296 × Fin 4294967296 × Fin 4294967296 × Fin 4294967296 :=
  (⟨(md5Core (strBytes u)).a, Nat.mod_lt _ (by norm_num)⟩,
   ⟨(md5Core (strBytes u)).b, Nat.mod_lt _ (by norm_num)⟩,
   ⟨(md5Core (strBytes u)).c, Nat.mod_lt _ (by norm_num)⟩,
   ⟨(md5Core (strBytes u)).d, Nat.mod_lt _ (by norm_num)⟩)

/-- Hex rendering of four packaged chaining words, mirroring `md5Hex`. -/
def hexOfWords
    (q : Fin 4294967296 × Fin 4294967296 × Fin 4294967296 × Fin 4294967296) :
    String :=
  String.mk ((wordLEBytes q.1.val ++ wordLEBytes q.2.1.val ++
    wordLEBytes q.2.2.1.val ++ wordLEBytes q.2.2.2.val).flatMap byteHexChars)

/-! ## Helper lemmas -/

/-- When the stored record's policy is `Expires t`, the cache-control
evaluation returns it unchanged: both the guard arm (`t ≥ now`) and the
fall-through `_` arm of the `match` keep the record as is. -/
theorem getUrlMetadata_expires (now t : Int) (url : String) (m : CacheHeaders)
    (hcc : m.cache_control = some (.Expires t)) :
    getUrlMetadata now (some m) url = m := by
  simp [getUrlMetadata, hcc]

/-- The built request's `If-None-Match` header is exactly the evaluated
metadata's etag, and `If-Modified-Since` exactly its last-modified value. -/
theorem buildRequest_fields (url : String) (m : CacheHeaders) :
    buildRequest url m =
      { url := url, ifNoneMatch := m.etag, ifModifiedSince := m.last_modified } := by
  cases he : m.etag <;> cases hl : m.last_modified <;>
    simp [buildRequest, he, hl]

/-! ## Claim C1 -/

/-- C1, counterexample: a stored record whose policy is `Expires 100` — still
in the future at evaluation instant `now = 0` — and which carries both an
etag and a last-modified value.  Contrary to the claim, the request built by
`cached_get_path` forwards both validators: the guard arm for a future
`Expires` only logs and leaves the stored validators in place. -/
theorem c1_counterexample :
    ((0 : Int) ≤ 100) ∧
    (buildRequest "http://example.test/a"
        (getUrlMetadata 0
          (some { source := some "http://example.test/a",
                  cache_control := some (.Expires 100),
                  last_modified := some "Wed, 21 Oct 2015 07:28:00 GMT",
                  etag := some "abc" })
          "http://example.test/a")).ifNoneMatch = some "abc" ∧
    (buildRequest "http://example.test/a"
        (getUrlMetadata 0
          (some { source := some "http://example.test/a",
                  cache_control := some (.Expires 100),
                  last_modified := some "Wed, 21 Oct 2015 07:28:00 GMT",
                  etag := some "abc" })
          "http://example.test/a")).ifModifiedSince =
      some "Wed, 21 Oct 2015 07:28:00 GMT" := by
  refine ⟨by norm_num, rfl, rfl⟩

/-- C1 (amended): for every stored metadata record whose cache-control policy
is `Expires t` with `t` not yet past at evaluation time, `get_url_metadata`
keeps the stored validators, so the request built from it carries
`If-None-Match` exactly when an etag is stored and `If-Modified-Since`
exactly when a last-modified value is stored. -/
theorem c1_expires_future_keeps_validators (now t : Int) (url : String)
    (m : CacheHeaders) (hcc : m.cache_control = some (.Expires t)) (_hfut : now ≤ t) :
    buildRequest url (getUrlMetadata now (some m) url) =
      { url := url, ifNoneMatch := m.etag, ifModifiedSince := m.last_modified } := by
  rw [getUrlMetadata_expires now t url m hcc, buildRequest_fields]

/-- C1 amended witness at a concrete record. -/
theorem c1_expires_future_keeps_validators_witness :
    buildRequest "u" (getUrlMetadata 0
        (some { source := some "u", cache_control := some (.Expires 100),
                last_modified := some "lm", etag := some "e" }) "u") =
      { url := "u", ifNoneMatch := some "e", ifModifiedSince := some "lm" } :=
  c1_expires_future_keeps_validators 0 100 "u"
    { source := some "u", cache_control := some (.Expires 100),
      last_modified := some "lm", etag := some "e" } rfl (by norm_num)

/-! ## Claim C9 -/

/-- C9: when the stored record's cache-control field is absent, the first arm
of `get_url_metadata`'s match clears both stored validators, so the request
built from the evaluated record carries neither `If-None-Match` nor
`If-Modified-Since` — the next fetch is a full, unconditional one. -/
theorem c9_absent_cache_control_clears_validators (now : Int) (url : String)
    (m : CacheHeaders) (hcc : m.cache_control = none) :
    (getUrlMetadata now (some m) url).etag = none ∧
    (getUrlMetadata now (some m) url).last_modified = none ∧
    buildRequest url (getUrlMetadata now (some m) url) =
      { url := url, ifNoneMatch := none, ifModifiedSince := none } := by
  have hmeta : getUrlMetadata now (some m) url =
      { m with etag := none, last_modified := none } := by
    simp [getUrlMetadata, hcc]
  rw [hmeta, buildRequest_fields]
  exact ⟨rfl, rfl, rfl⟩

/-- C9 witness: a record with both validators stored but no cache-control
field; both are cleared and the request carries no validators. -/
theorem c9_absent_cache_control_clears_validators_witness :
    (getUrlMetadata 7 (some { source := some "u", cache_control := none,
                              last_modified := some "lm", etag := some "e" })
      "u").etag = none ∧
    (getUrlMetadata 7 (some { source := some "u", cache_control := none,
                              last_modified := some "lm", etag := some "e" })
      "u").last_modified = none ∧
    buildRequest "u" (getUrlMetadata 7 (some { source := some "u",
                                               cache_control := none,
                                               last_modified := some "lm",
                                               etag := some "e" }) "u") =
      { url := "u", ifNoneMatch := none, ifModifiedSince := none } :=
  c9_absent_cache_control_clears_validators 7 "u"
    { source := some "u", cache_control := none,
      last_modified := some "lm", etag := some "e" } rfl

/-! ## Claim C2 -/

/-- C2: for a URL with an existing cache entry, when the conditional request
returns 304 Not Modified, `cached_get_path` returns the entry state exactly
as it was — the data artifact's bytes and the metadata record are untouched —
together with the path of the existing data artifact. -/
theorem c2_not_modified_preserves_entry (now : Int) (st : CacheState)
    (url : String) (server : HttpRequest → HttpResponse)
    (m : CacheHeaders) (d : List Nat) (_hmeta : st.meta = some m)
    (_hdata : st.data = some d)
    (hstatus : (server (buildRequest url (getUrlMetadata now st.meta url))).status = 304) :
    cachedGetPath now st url server = (st, .ok (dataPath url)) := by
  simp [cachedGetPath, hstatus, isSuccess]

/-- C2 witness: a populated entry and a server answering 304. -/
theorem c2_not_modified_preserves_entry_witness :
    cachedGetPath 0
        { data := some [1, 2, 3], meta := some (CacheHeaders.new "u") } "u"
        (fun _ => { status := 304, body := [], etag := none,
                    lastModified := none, cacheControl := [] }) =
      ({ data := some [1, 2, 3], meta := some (CacheHeaders.new "u") },
       .ok (dataPath "u")) :=
  c2_not_modified_preserves_entry 0
    { data := some [1, 2, 3], meta := some (CacheHeaders.new "u") } "u"
    (fun _ => { status := 304, body := [], etag := none,
                lastModified := none, cacheControl := [] })
    (CacheHeaders.new "u") [1, 2, 3] rfl rfl rfl

/-! ## Claim C3 -/

/-- C3: for a fetch whose response status is 2xx, the persisted metadata
record is built afresh (`CacheHeaders::new` plus the response's headers): its
etag is exactly the response's `ETag` header value and its last-modified
exactly the response's `Last-Modified` header value, each absent when the
response omitted the header; the prior record is wholly replaced (no field of
the old record survives), and the body is written to the data artifact. -/
theorem c3_success_replaces_metadata (now : Int) (st : CacheState)
    (url : String) (server : HttpRequest → HttpResponse)
    (hstatus : isSuccess
      (server (buildRequest url (getUrlMetadata now st.meta url))).status = true) :
    cachedGetPath now st url server =
      ({ data := some (server (buildRequest url (getUrlMetadata now st.meta url))).body,
         meta := some
           { source := some url,
             cache_control := firstParsedCacheControl now
               (server (buildRequest url (getUrlMetadata now st.meta url))).cacheControl,
             last_modified :=
               (server (buildRequest url (getUrlMetadata now st.meta url))).lastModified,
             etag := (server (buildRequest url (getUrlMetadata now st.meta url))).etag } },
       .ok (dataPath url)) := by
  simp [cachedGetPath, hstatus, CacheHeaders.new]

/-- C3 witness: a 200 response carrying an `ETag` but no `Last-Modified`,
over a pre-existing entry with different metadata. -/
theorem c3_success_replaces_metadata_witness :
    cachedGetPath 0
        { data := some [9], meta := some { source := some "u",
                                           cache_control := some .NoCache,
                                           last_modified := some "old",
                                           etag := some "old-tag" } } "u"
        (fun _ => { status := 200, body := [5, 6], etag := some "v1",
                    lastModified := none, cacheControl := [] }) =
      ({ data := some [5, 6],
         meta := some { source := some "u",
                        cache_control := none,
                        last_modified := none,
                        etag := some "v1" } },
       .ok (dataPath "u")) := by
  have h := c3_success_replaces_metadata 0
    { data := some [9], meta := some { source := some "u",
                                       cache_control := some .NoCache,
                                       last_modified := some "old",
                                       etag := some "old-tag" } } "u"
    (fun _ => { status := 200, body := [5, 6], etag := some "v1",
                lastModified := none, cacheControl := [] }) rfl
  simpa [firstParsedCacheControl] using h

/-! ## Claim C4 -/

/-- C4: for a fetch whose response status is neither 2xx nor 304,
`cached_get_path` returns the HTTP-status error carrying exactly that numeric
status, and the cache entry is returned unchanged — neither the data artifact
nor the metadata record is written or altered. -/
theorem c4_error_status_no_mutation (now : Int) (st : CacheState)
    (url : String) (server : HttpRequest → HttpResponse)
    (h2xx : isSuccess
      (server (buildRequest url (getUrlMetadata now st.meta url))).status = false)
    (h304 : (server (buildRequest url (getUrlMetadata now st.meta url))).status ≠ 304) :
    cachedGetPath now st url server =
      (st, .error (.httpStatusFail
        (server (buildRequest url (getUrlMetadata now st.meta url))).status)) := by
  simp [cachedGetPath, h2xx, h304]

/-- C4 witness: a 404 response leaves the populated entry untouched and
surfaces `HttpStatusError 404`. -/
theorem c4_error_status_no_mutation_witness :
    cachedGetPath 0
        { data := some [1], meta := some (CacheHeaders.new "u") } "u"
        (fun _ => { status := 404, body := [], etag := none,
                    lastModified := none, cacheControl := [] }) =
      ({ data := some [1], meta := some (CacheHeaders.new "u") },
       .error (.httpStatusFail 404)) :=
  c4_error_status_no_mutation 0
    { data := some [1], meta := some (CacheHeaders.new "u") } "u"
    (fun _ => { status := 404, body := [], etag := none,
                lastModified := none, cacheControl := [] })
    rfl (by norm_num)

/-! ## Claim C7 -/

/-- C7, counterexample: two concrete header strings of the recognized
`max-age=<seconds>` token form on which the claimed conversion fails.
The first overflows `u64::from_str_radix` (20 digits, above `u64::MAX`) and
parses to an error — neither `Expires(now + seconds)` nor `MustRevalidate`.
The second, `2^64 - 10`, survives the `u64` parse but wraps through the
`as i64` cast to `-10`, yielding an `Expires` ten seconds in the *past*
rather than the claimed `now + seconds`. -/
theorem c7_counterexample :
    cacheControlParse 0 "max-age=99999999999999999999" = .err .parseIntFail ∧
    cacheControlParse 0 "max-age=18446744073709551606" = .ok (.Expires (-10)) ∧
    (-10 : Int) ≠ 0 + 18446744073709551606 := by
  refine ⟨by decide, by decide, by decide⟩

/-- C7 (amended): `CacheControl::try_from` recognizes only the single token
form `max-age=<\d+>` (`\d` the Unicode decimal digits), and: (a) any input
not matching the pattern parses to `Ok(MustRevalidate)`; a matching input
(b) converts to `Ok(Expires(now + seconds))` when its digits are ASCII and
the value lies within `chrono`'s duration bound with `now + seconds` inside
`chrono`'s instant range, (c) fails with a parse error when a digit is a
non-ASCII decimal digit, (d) fails with a parse error when the value
overflows `u64`, and (e) panics (rather than returning any value) when the
value is between the duration bound and `2^63`; (f) no returned `Ok` is ever
`NoStore` or `NoCache`, and an `Expires` arises only from a `max-age` match
— unrecognized input is never converted into a trusted or expiring state. -/
theorem c7_parse_partition (now : Int) (s : String) :
    (maxAgeCapture s = none → cacheControlParse now s = .ok .MustRevalidate) ∧
    (∀ ds, maxAgeCapture s = some ds →
      (ds.all Char.isDigit = false →
        cacheControlParse now s = .err .parseIntFail) ∧
      (ds.all Char.isDigit = true → u64Max < natOfDigits ds →
        cacheControlParse now s = .err .parseIntFail) ∧
      (ds.all Char.isDigit = true → natOfDigits ds ≤ durationSecsMax →
        dateTimeMinTs ≤ now + natOfDigits ds →
        now + natOfDigits ds ≤ dateTimeMaxTs →
        cacheControlParse now s = .ok (.Expires (now + natOfDigits ds))) ∧
      (ds.all Char.isDigit = true → durationSecsMax < natOfDigits ds →
        natOfDigits ds < 9223372036854775808 →
        cacheControlParse now s = .panics)) ∧
    (∀ c, cacheControlParse now s = .ok c →
      c ≠ .NoStore ∧ c ≠ .NoCache ∧ ∀ t, c = .Expires t → maxAgeCapture s ≠ none) := by
  refine ⟨?_, ?_, ?_⟩
  · intro hnone
    simp [cacheControlParse, hnone]
  · intro ds hds
    refine ⟨?_, ?_, ?_, ?_⟩
    · intro hascii
      simp [cacheControlParse, hds, hascii]
    · intro hascii hover
      have hnle : ¬ natOfDigits ds ≤ u64Max := by omega
      simp [cacheControlParse, hds, hascii, hnle]
    · intro hascii h1 h2 h3
      have hle : natOfDigits ds ≤ u64Max := by
        unfold durationSecsMax at h1; unfold u64Max; omega
      have hlt : natOfDigits ds < 9223372036854775808 := by
        unfold durationSecsMax at h1; omega
      have hw : u64AsI64 (natOfDigits ds) = (natOfDigits ds : Int) := by
        simp [u64AsI64, hlt]
      have hdur : ¬ (u64AsI64 (natOfDigits ds) < -(durationSecsMax : Int) ∨
          (durationSecsMax : Int) < u64AsI64 (natOfDigits ds)) := by
        rw [hw]; omega
      have hdt : ¬ (now + u64AsI64 (natOfDigits ds) < dateTimeMinTs ∨
          dateTimeMaxTs < now + u64AsI64 (natOfDigits ds)) := by
        rw [hw]; omega
      simp only [cacheControlParse, hds, hascii, if_true, if_pos hle, hw]
      rw [hw] at hdur hdt
      rw [if_neg hdur, if_neg hdt]
    · intro hascii hgt hlt
      have hle : natOfDigits ds ≤ u64Max := by unfold u64Max; omega
      have hw : u64AsI64 (natOfDigits ds) = (natOfDigits ds : Int) := by
        simp [u64AsI64, hlt]
      have hdur : u64AsI64 (natOfDigits ds) < -(durationSecsMax : Int) ∨
          (durationSecsMax : Int) < u64AsI64 (natOfDigits ds) := by
        rw [hw]
        exact Or.inr (by exact_mod_cast hgt)
      simp only [cacheControlParse, hds, hascii, if_true, if_pos hle,
        if_pos hdur]
  · intro c hc
    rcases hcap : maxAgeCapture s with _ | ds
    · simp only [cacheControlParse, hcap] at hc
      cases hc
      exact ⟨by simp, by simp, by intro t ht; cases ht⟩
    · simp only [cacheControlParse, hcap] at hc
      split_ifs at hc <;> cases hc <;>
        exact ⟨by simp, by simp, by intro t _; simp [hcap]⟩

/-- C7 amended witness: `"max-age=604800"` parses to an absolute expiry
604800 seconds past "now". -/
theorem c7_parse_partition_witness :
    cacheControlParse 0 "max-age=604800" = .ok (.Expires 604800) := by
  have h := (((c7_parse_partition 0 "max-age=604800").2.1
      "604800".data (by decide)).2.2.1)
    (by decide) (by decide) (by decide) (by decide)
  have hval : natOfDigits "604800".data = 604800 := by decide
  rw [hval] at h
  norm_num at h
  exact h

/-! ## Claim C10 -/

/-- C10: in `validate_file` the existence check precedes the dispatch on the
checksum algorithm, so a nonexistent path always yields the `FileNotExist`
error whatever algorithm was requested, and an `UnsupportedChecksumType`
outcome (necessarily naming the requested algorithm) only ever arises for a
path that exists. -/
theorem c10_existence_check_first (fs : String → Option (List Nat))
    (path checksum_type checksum : String) :
    (fs path = none →
      validateFile fs path checksum_type checksum = .error (.fileNotExist path)) ∧
    (∀ t, validateFile fs path checksum_type checksum =
        .error (.unsupportedChecksumType t) →
      (fs path).isSome = true ∧ t = checksum_type) := by
  constructor
  · intro hnone
    simp [validateFile, hnone]
  · intro t ht
    rcases hfs : fs path with _ | contents
    · rw [validateFile, hfs] at ht
      cases ht
    · refine ⟨by simp [hfs], ?_⟩
      rw [validateFile, hfs] at ht
      by_cases hct : checksum_type = "md5"
      · by_cases hd : md5Hex contents ≠ checksum <;> simp [hct, hd] at ht
      · simp only [hct, if_false, if_neg] at ht
        cases ht
        rfl

/-- C10 witness: a nonexistent path with a non-`"md5"` algorithm name is
reported `FileNotExist`, not `UnsupportedChecksumType`. -/
theorem c10_existence_check_first_witness :
    validateFile (fun _ => none) "pkg/a.deb" "sha1" "00" =
      .error (.fileNotExist "pkg/a.deb") :=
  (c10_existence_check_first (fun _ => none) "pkg/a.deb" "sha1" "00").1 rfl

/-! ## Claim C6 -/

set_option maxRecDepth 16000 in
/-- C6, counterexample: an existing empty file verified with `"md5"` against
an expected checksum that is the correct digest written in upper-case hex.
`validate_file` compares with plain string inequality (`digest_str !=
checksum`), so the case-differing checksum is reported as a digest mismatch,
not `Valid`. -/
theorem c6_counterexample :
    validateFile (fun p => if p = "cache/empty.bin" then some [] else none)
        "cache/empty.bin" "md5" "D41D8CD98F00B204E9800998ECF8427E" =
      .error (.fileDigestInvalid "cache/empty.bin" "md5"
        "D41D8CD98F00B204E9800998ECF8427E" "d41d8cd98f00b204e9800998ecf8427e") := by
  have hdig : md5Hex [] = "d41d8cd98f00b204e9800998ecf8427e" := by decide
  have hne : ("d41d8cd98f00b204e9800998ecf8427e" : String) ≠
      "D41D8CD98F00B204E9800998ECF8427E" := by decide
  simp [validateFile, hdig, hne]

/-- C6 (amended): for an existing file verified with the supported algorithm,
the computed lower-case hex digest is compared to the expected checksum by
exact, case-sensitive string equality — no normalization happens, so the
outcome is `Ok` exactly when the strings are identical, and otherwise the
`FileDigestInvalid` error reporting both strings verbatim. -/
theorem c6_digest_comparison_exact (fs : String → Option (List Nat))
    (path checksum : String) (contents : List Nat)
    (hfs : fs path = some contents) :
    (validateFile fs path "md5" checksum = .ok () ↔ md5Hex contents = checksum) ∧
    (md5Hex contents ≠ checksum →
      validateFile fs path "md5" checksum =
        .error (.fileDigestInvalid path "md5" checksum (md5Hex contents))) := by
  constructor
  · by_cases hd : md5Hex contents = checksum <;> simp [validateFile, hfs, hd]
  · intro hd
    simp [validateFile, hfs, hd]

set_option maxRecDepth 16000 in
/-- C6 amended witness: the empty file against its exact lower-case digest is
accepted. -/
theorem c6_digest_comparison_exact_witness :
    validateFile (fun p => if p = "cache/empty.bin" then some [] else none)
        "cache/empty.bin" "md5" "d41d8cd98f00b204e9800998ecf8427e" = .ok () :=
  (c6_digest_comparison_exact
      (fun p => if p = "cache/empty.bin" then some [] else none)
      "cache/empty.bin" "d41d8cd98f00b204e9800998ecf8427e" [] rfl).1.mpr (by decide)

/-! ## Claim C8 -/

/-- The cache key is a function of the four final MD5 chaining words alone. -/
theorem urlCacheKey_factor (u : String) :
    urlCacheKey u = hexOfWords (md5CoreFin u) := rfl

/-- Strings are infinite while the digest state space is finite, so key
derivation must identify some pair of distinct URLs. -/
theorem exists_urlCacheKey_collision :
    ∃ u1 u2 : String, u1 ≠ u2 ∧ urlCacheKey u1 = urlCacheKey u2 := by
  have hinf : Infinite String :=
    Infinite.of_injective (fun n : ℕ => String.mk (List.replicate n 'a'))
      (fun a b h => by
        have hlen := congrArg (fun s => s.data.length) h
        simpa using hlen)
  obtain ⟨x, y, hxy, hfeq⟩ :=
    @Finite.exists_ne_map_eq_of_infinite String _ hinf _ md5CoreFin
  exact ⟨x, y, hxy, by rw [urlCacheKey_factor, urlCacheKey_factor, hfeq]⟩

/-- C8, counterexample: the derived keys cannot be distinct for every pair of
distinct URL strings — the key is the hex form of a 128-bit MD5 state, so by
the pigeonhole principle over the infinitely many URL strings some two
distinct URLs share a key.  The universally quantified injectivity claim is
therefore false. -/
theorem c8_counterexample :
    ¬ ∀ u1 u2 : String, u1 ≠ u2 → urlCacheKey u1 ≠ urlCacheKey u2 := by
  intro h
  obtain ⟨u1, u2, hne, heq⟩ := exists_urlCacheKey_collision
  exact h u1 u2 hne heq

/-- C8 (amended): key derivation is deterministic — it is a pure function of
the URL string, so repeated derivation yields the same key and equal URLs
yield equal keys — and every derived key is a 32-character (lower-case hex)
digest string; but distinct URLs are only distinct-keyed with overwhelming
probability, not universally (MD5 collisions exist). -/
theorem c8_key_deterministic_and_shaped :
    (∀ u v : String, u = v → urlCacheKey u = urlCacheKey v) ∧
    (∀ u : String, (urlCacheKey u).length = 32) := by
  constructor
  · intro u v huv
    rw [huv]
  · intro u
    show (String.mk ((md5Bytes (strBytes u)).flatMap byteHexChars)).length = 32
    simp [String.length, md5Bytes, wordLEBytes, byteHexChars]

/-- C8 amended witness: equal URLs yield equal keys at a concrete URL. -/
theorem c8_key_deterministic_and_shaped_witness :
    urlCacheKey "http://example.test/a" = urlCacheKey "http://example.test/a" ∧
    (urlCacheKey "http://example.test/a").length = 32 :=
  ⟨c8_key_deterministic_and_shaped.1 "http://example.test/a"
     "http://example.test/a" rfl,
   c8_key_deterministic_and_shaped.2 "http://example.test/a"⟩

/-! ## Claim C5 -/

/-- A `validate_file` outcome that `verify` treats as a per-file report turns
into an `Ok` log event in the per-file step. -/
theorem verifyStep_ok_of_nonFatal (fs : String → Option (List Nat))
    (cache_dir : String) (file : L3DownloadFile)
    (h : stepOutcomeNonFatal (validateFile fs (cache_dir ++ "/" ++ file.file_name)
      file.checksum_type file.checksum) = true) :
    ∃ ev, verifyStep fs cache_dir file = .ok ev := by
  rcases hv : validateFile fs (cache_dir ++ "/" ++ file.file_name)
      file.checksum_type file.checksum with e | u
  · rw [hv] at h
    cases e <;> simp [stepOutcomeNonFatal] at h
    case fileNotExist p =>
      exact ⟨.missingFile p, by simp [verifyStep, hv]⟩
    case fileDigestInvalid f ct ex ac =>
      exact ⟨.invalidDigest f ct ac ex, by simp [verifyStep, hv]⟩
  · exact ⟨.validFile (cache_dir ++ "/" ++ file.file_name),
      by simp [verifyStep, hv]⟩

/-- An error propagated out of the per-file step is never one of the two
per-file-reported kinds. -/
theorem verifyStep_error_fatal (fs : String → Option (List Nat))
    (cache_dir : String) (file : L3DownloadFile) (e : Error)
    (h : verifyStep fs cache_dir file = .error e) :
    stepOutcomeNonFatal (.error e) = false := by
  rcases hv : validateFile fs (cache_dir ++ "/" ++ file.file_name)
      file.checksum_type file.checksum with e' | u
  · cases e' <;> simp [verifyStep, hv] at h
    all_goals (subst h; rfl)
  · simp [verifyStep, hv] at h

/-- If every file in the list has a reportable outcome, the step runner
completes the whole list, emitting one log event per file and no error. -/
theorem runSteps_all_nonFatal (fs : String → Option (List Nat))
    (cache_dir : String) (files : List L3DownloadFile)
    (h : ∀ file ∈ files,
      stepOutcomeNonFatal (validateFile fs (cache_dir ++ "/" ++ file.file_name)
        file.checksum_type file.checksum) = true) :
    (runSteps fs cache_dir files).2 = none ∧
    (runSteps fs cache_dir files).1.length = files.length := by
  induction files with
  | nil => exact ⟨rfl, rfl⟩
  | cons file rest ih =>
    obtain ⟨ev, hev⟩ := verifyStep_ok_of_nonFatal fs cache_dir file
      (h file (by simp))
    have ih' := ih (fun f hf => h f (by simp [hf]))
    refine ⟨?_, ?_⟩ <;> simp [runSteps, hev, ih'.1, ih'.2]

/-- An error propagated out of the step runner is never one of the two
per-file-reported kinds. -/
theorem runSteps_error_fatal (fs : String → Option (List Nat))
    (cache_dir : String) (files : List L3DownloadFile) (e : Error)
    (h : (runSteps fs cache_dir files).2 = some e) :
    stepOutcomeNonFatal (.error e) = false := by
  induction files with
  | nil => simp [runSteps] at h
  | cons file rest ih =>
    rcases hv : verifyStep fs cache_dir file with e' | ev
    · rw [show (runSteps fs cache_dir (file :: rest)).2 = some e' by
          simp [runSteps, hv]] at h
      cases h
      exact verifyStep_error_fatal fs cache_dir file e hv
    · rw [show (runSteps fs cache_dir (file :: rest)).2 =
          (runSteps fs cache_dir rest).2 by simp [runSteps, hv]] at h
      exact ih h

/-- C5: in the batch `verify` flow, only `FileDigestInvalid` (digest
mismatch) and `FileNotExist` (missing file) are per-file reports: (a) when
every file of every requested component has such a reportable outcome, the
run completes a full pass with no fatal error, reporting each file with its
own log line; (b) whenever the run does abort with a fatal error, that error
is never one of those two per-file kinds — but, contrary to the claim, the
unsupported-algorithm failure is in the fatal class, as the counterexample
shows. -/
theorem c5_verify_batch_error_policy (get_component : String → Option L3Component)
    (fs : String → Option (List Nat)) (cache_dir : String)
    (component_ids : List String) :
    ((∀ id ∈ component_ids, ∃ comp, get_component id = some comp ∧
        ∀ file ∈ componentFiles comp,
          stepOutcomeNonFatal (validateFile fs (cache_dir ++ "/" ++ file.file_name)
            file.checksum_type file.checksum) = true) →
      (verify get_component fs cache_dir component_ids).2 = none ∧
      (verify get_component fs cache_dir component_ids).1.length =
        verifyTotalFiles get_component component_ids) ∧
    (∀ e, (verify get_component fs cache_dir component_ids).2 = some e →
      stepOutcomeNonFatal (.error e) = false) := by
  induction component_ids with
  | nil =>
    exact ⟨fun _ => ⟨rfl, rfl⟩, fun e he => by cases he⟩
  | cons component_id rest ih =>
    constructor
    · intro h
      obtain ⟨comp, hcomp, hfiles⟩ := h component_id (by simp)
      have hrun := runSteps_all_nonFatal fs cache_dir (componentFiles comp) hfiles
      have ihrest := ih.1 (fun id hid => h id (by simp [hid]))
      constructor
      · simp [verify, hcomp, hrun.1, ihrest.1]
      · simp [verify, verifyTotalFiles, hcomp, hrun.1, hrun.2, ihrest.2]
    · intro e he
      rcases hcomp : get_component component_id with _ | comp
      · rw [show (verify get_component fs cache_dir (component_id :: rest)).2 =
            some (.invalidComponent component_id) by simp [verify, hcomp]] at he
        cases he
        rfl
      · rcases hrun : (runSteps fs cache_dir (componentFiles comp)).2 with _ | e'
        · rw [show (verify get_component fs cache_dir (component_id :: rest)).2 =
              (verify get_component fs cache_dir rest).2 by
                simp [verify, hcomp, hrun]] at he
          exact ih.2 e he
        · rw [show (verify get_component fs cache_dir (component_id :: rest)).2 =
              some e' by simp [verify, hcomp, hrun]] at he
          cases he
          exact runSteps_error_fatal fs cache_dir (componentFiles comp) e hrun

/-- C5 witness: one component with two missing files; both are reported as
per-file missing-file lines and the batch completes with no fatal error. -/
theorem c5_verify_batch_error_policy_witness :
    (verify
      (fun id => if id = "comp.a" then
        some { id := "comp.a",
               versions := [{ version := "1", download_files := [
                 { url := "u1", file_name := "f1.bin", checksum := "00",
                   checksum_type := "md5" },
                 { url := "u2", file_name := "f2.bin", checksum := "00",
                   checksum_type := "md5" }] }] }
        else none)
      (fun _ => none) "cache" ["comp.a"]).2 = none ∧
    (verify
      (fun id => if id = "comp.a" then
        some { id := "comp.a",
               versions := [{ version := "1", download_files := [
                 { url := "u1", file_name := "f1.bin", checksum := "00",
                   checksum_type := "md5" },
                 { url := "u2", file_name := "f2.bin", checksum := "00",
                   checksum_type := "md5" }] }] }
        else none)
      (fun _ => none) "cache" ["comp.a"]).1.length = 2 := by
  have h := (c5_verify_batch_error_policy
    (fun id => if id = "comp.a" then
      some { id := "comp.a",
             versions := [{ version := "1", download_files := [
               { url := "u1", file_name := "f1.bin", checksum := "00",
                 checksum_type := "md5" },
               { url := "u2", file_name := "f2.bin", checksum := "00",
                 checksum_type := "md5" }] }] }
      else none)
    (fun _ => none) "cache" ["comp.a"]).1
    (by
      intro id hid
      simp only [List.mem_singleton] at hid
      subst hid
      refine ⟨_, rfl, ?_⟩
      decide)
  exact ⟨h.1, h.2.trans (by rfl)⟩

/-- C5, counterexample: a batch where the first file exists but names the
unsupported algorithm `"sha1"` and a second file is missing.  Contrary to the
claim, the unsupported-algorithm integrity failure is fatal mid-batch: the
run aborts with `UnsupportedChecksumType`, no per-file line is emitted, and
the remaining (missing) file is never processed. -/
theorem c5_counterexample :
    verify
      (fun id => if id = "comp.a" then
        some { id := "comp.a",
               versions := [{ version := "1", download_files := [
                 { url := "u1", file_name := "f1.bin", checksum := "00",
                   checksum_type := "sha1" },
                 { url := "u2", file_name := "f2.bin", checksum := "00",
                   checksum_type := "md5" }] }] }
        else none)
      (fun p => if p = "cache/f1.bin" then some [1] else none)
      "cache" ["comp.a"] =
    ([], some (.unsupportedChecksumType "sha1")) := by
  decide

end NvsdkGetter
